import Mathlib

/-!
Verification of the `vsop` Vedic birth-chart calculator (`src/main.rs`)
against its natural-language specification.

Modelling conventions:
* Rust `f64` values are modelled as exact rationals (`ℚ`); decimal literals of
  the source are read as exact decimal fractions.
* `x.rem_euclid y` on `f64` is `rustRemEuclid`, the Euclidean remainder;
  the `%` operator on `f64` is `rustRem` (remainder with the dividend's sign,
  i.e. truncated division).  `%` on Rust integers is `Int.tmod`.
* `x.floor() as i32` / `as usize` casts are `Int.floor` (with `Int.toNat`
  for the unsigned cast, matching Rust's saturation of negative floats to 0).
* Rust `Result<T, VedicError>` is `Except VedicError T`.
* All definitions are executable.
-/

namespace Vsop

/-- Truncation toward zero on `ℚ`, the rounding used by Rust's `%` on `f64`
and by `as`-casts from floats to integers. -/
def ratTrunc (x : ℚ) : ℤ := if 0 ≤ x then ⌊x⌋ else ⌈x⌉

/-- Rust `f64::rem_euclid`: `x - y * (x / y).floor()` for positive `y`,
yielding a value in `[0, y)`. -/
def rustRemEuclid (x y : ℚ) : ℚ := x - y * ⌊x / y⌋

/-- Rust `%` on `f64`: remainder of truncated division (sign of the dividend). -/
def rustRem (x y : ℚ) : ℚ := x - y * ratTrunc (x / y)

/-- Rust `f64::round`: round half away from zero. -/
def rustRound (x : ℚ) : ℤ := if 0 ≤ x then ⌊x + 1/2⌋ else ⌈x - 1/2⌉

/-- `(x * 100_000_000.0).round() / 100_000_000.0` from `compute_whole_sign_houses`. -/
def round8 (x : ℚ) : ℚ := (rustRound (x * 100000000) : ℚ) / 100000000

/-- `(… ).floor() as usize` on a nonnegative-or-clamped float:
floor, then saturate below at 0 (Rust float→unsigned `as`-cast). -/
def floorToNat (x : ℚ) : ℕ := (⌊x⌋).toNat

/-!  ## TimeSystem (src/main.rs lines 23–48, 193–203) -/

/-- `date_to_jd` (src lines 23–48): Meeus-style Gregorian date/time to
Julian Day conversion. -/
def date_to_jd (year : ℤ) (month day hour minute second : ℕ) : ℚ :=
  let y₀ : ℚ := (year : ℚ)
  let m₀ : ℚ := (month : ℚ)
  let d : ℚ := (day : ℚ)
  let h : ℚ := (hour : ℚ)
  let min : ℚ := (minute : ℚ)
  let s : ℚ := (second : ℚ)
  let y : ℚ := if m₀ ≤ 2 then y₀ - 1 else y₀
  let m : ℚ := if m₀ ≤ 2 then m₀ + 12 else m₀
  let a : ℚ := (⌊y / 100⌋ : ℚ)
  let b : ℚ := 2 - a + (⌊a / 4⌋ : ℚ)
  (⌊365.25 * (y + 4716)⌋ : ℚ) + (⌊30.6001 * (m + 1)⌋ : ℚ) + d + b - 1524.5
    + h / 24 + min / 1440 + s / 86400

/-- `normalize_degrees` (src lines 86–88): `deg.rem_euclid(360.0)`. -/
def normalize_degrees (deg : ℚ) : ℚ := rustRemEuclid deg 360

/-- `local_sidereal_time` (src lines 193–203): GMST polynomial plus the
observer's east longitude, normalized to `[0, 360)`. -/
def local_sidereal_time (jd geo_long_deg : ℚ) : ℚ :=
  let d := jd - 2451545
  let t := d / 36525
  let gmst := 280.46061837 + 360.98564736629 * d + 0.000387933 * t * t
    - t * t * t / 38710000
  let gmst_norm := normalize_degrees gmst
  let lst := gmst_norm + geo_long_deg
  normalize_degrees lst

/-!  ## CoordinateEngine: whole-sign houses (src lines 237–264 and 1323–1342) -/

/-- `compute_whole_sign_houses` (src lines 237–264): the offset-preserving
variant.  Cusp `i` is `sign_start + i·30 + offset` reduced into `[0,360)` and
rounded to 8 decimal places, where `offset` is the ascendant's in-sign degree. -/
def compute_whole_sign_houses (asc_sid_deg : ℚ) (i : Fin 12) : ℚ :=
  let asc_normalized := rustRemEuclid asc_sid_deg 360
  let sign_index : ℤ := ⌊asc_normalized / 30⌋
  let sign_start_deg : ℚ := (sign_index : ℚ) * 30
  let offset := asc_normalized - sign_start_deg
  let base := sign_start_deg + (i : ℚ) * 30
  let cusp := rustRemEuclid (base + offset) 360
  round8 cusp

/-- `calculate_whole_sign_houses` (src lines 1323–1342): the sign-boundary
variant.  Cusp `i` is `sign_start + i·30` reduced into `[0,360)`. -/
def calculate_whole_sign_houses (asc_sid_deg : ℚ) (i : Fin 12) : ℚ :=
  let asc_normalized := rustRemEuclid asc_sid_deg 360
  let sign_index : ℤ := ⌊asc_normalized / 30⌋
  let sign_start_deg : ℚ := (sign_index : ℚ) * 30
  rustRemEuclid (sign_start_deg + (i : ℚ) * 30) 360

/-!  ## ChartMapper: divisional sign mappings (src lines 495–609, 1521–1561) -/

/-- `get_rasi_name` (src lines 495–511).  The source's `unreachable!()` default
arm is modelled as the empty string (it is never hit by in-range indices). -/
def get_rasi_name (index : ℤ) : String :=
  match index with
  | 0 => "Meṣa"
  | 1 => "Vṛṣabha"
  | 2 => "Mithuna"
  | 3 => "Karka"
  | 4 => "Siṃha"
  | 5 => "Kanyā"
  | 6 => "Tulā"
  | 7 => "Vṛścika"
  | 8 => "Dhanuṣ"
  | 9 => "Makara"
  | 10 => "Kumbha"
  | 11 => "Mīna"
  | _ => ""

/-- `compute_hora` (src lines 520–537): D2 odd/even-sign policy. -/
def compute_hora (sidereal_long_deg : ℚ) : String :=
  let pos_in_rasi := rustRem sidereal_long_deg 30
  let rasi : ℤ := ⌊sidereal_long_deg / 30⌋
  let hora : ℤ :=
    if Int.tmod rasi 2 = 0 then (if pos_in_rasi < 15 then 4 else 0)
    else (if pos_in_rasi < 15 then 3 else 1)
  get_rasi_name hora

/-- `compute_drekkana` (src lines 540–545): D3 mapping
`(floor(pos/10) + rasi·4) % 12`. -/
def compute_drekkana (sidereal_long_deg : ℚ) : String :=
  let rasi : ℤ := ⌊sidereal_long_deg / 30⌋
  let pos_in_rasi := rustRem sidereal_long_deg 30
  let drekkana : ℤ := Int.tmod (⌊pos_in_rasi / 10⌋ + rasi * 4) 12
  get_rasi_name drekkana

/-- `compute_navamsa` (src lines 588–593): D9 mapping
`(floor(pos/(30/9)) + rasi·9) % 12`. -/
def compute_navamsa (sidereal_long_deg : ℚ) : String :=
  let rasi : ℤ := ⌊sidereal_long_deg / 30⌋
  let pos_in_rasi := rustRem sidereal_long_deg 30
  let navamsa : ℤ := Int.tmod (⌊pos_in_rasi / (30 / 9)⌋ + rasi * 9) 12
  get_rasi_name navamsa

/-- `compute_dwadasamsa` (src lines 604–609): D12 mapping
`(floor(pos/2.5) + rasi·12) % 12`. -/
def compute_dwadasamsa (sidereal_long_deg : ℚ) : String :=
  let rasi : ℤ := ⌊sidereal_long_deg / 30⌋
  let pos_in_rasi := rustRem sidereal_long_deg 30
  let dwadasamsa : ℤ := Int.tmod (⌊pos_in_rasi / 2.5⌋ + rasi * 12) 12
  get_rasi_name dwadasamsa

/-- The D11 sign computation inlined in `calculate_rudramsa_chart`
(src lines 1524–1526): note it divides the **full longitude** by `30/11`,
not the position within the sign. -/
def rudramsa_sign (sidereal_long_deg : ℚ) : ℤ :=
  Int.tmod (⌊sidereal_long_deg / (30 / 11)⌋ + ⌊sidereal_long_deg / 30⌋ * 11) 12

/-- The D16 sign computation inlined in `calculate_shodasamsa_chart`
(src lines 1545–1547): note it divides the **full longitude** by `30/16`,
not the position within the sign. -/
def shodasamsa_sign (sidereal_long_deg : ℚ) : ℤ :=
  Int.tmod (⌊sidereal_long_deg / (30 / 16)⌋ + ⌊sidereal_long_deg / 30⌋ * 16) 12

/-- The generic divisional formula as worded by the spec:
`signIndex = (floor(posInSign / (30/N)) + rasiIndex·N) mod 12` with
`rasiIndex = floor(longitude/30)` and `posInSign = longitude mod 30`. -/
def varga_formula (n : ℕ) (longitude : ℚ) : ℤ :=
  Int.emod (⌊(rustRem longitude 30) / (30 / (n : ℚ))⌋ + ⌊longitude / 30⌋ * n) 12

/-!  ## Model layer: errors, birth data, planet positions (src lines 121–134, 748–827) -/

/-- `VedicError` (src lines 750–760). -/
inductive VedicError where
  | InvalidLongitude (lon : ℚ)
  | InvalidLatitude (lat : ℚ)
  | InvalidDateTime (msg : String)
  | InvalidPlanet (name : String)
  | InvalidHouse (num : ℤ)
  | InvalidDivisionalChart (name : String)
  | CalculationError (msg : String)
  | DataError (msg : String)
deriving DecidableEq, Repr

/-- `PlanetPosition` (src lines 128–134). -/
structure PlanetPosition where
  name : String
  sidereal_long_deg : ℚ
  latitude_deg : ℚ
  distance_au : ℚ
deriving DecidableEq, Repr

/-- `BirthData` (src lines 782–788).  The `chrono::DateTime<Utc>` timestamp is
opaque to all the claims and is modelled as an abstract instant (`ℤ`). -/
structure BirthData where
  datetime : ℤ
  longitude : ℚ
  latitude : ℚ
  timezone : String
deriving DecidableEq, Repr

/-- `BirthData::new` (src lines 792–814): validates longitude then latitude,
otherwise stores the fields exactly as passed. -/
def BirthData.new (datetime : ℤ) (longitude latitude : ℚ) (timezone : String) :
    Except VedicError BirthData :=
  if longitude < -180 ∨ longitude > 180 then
    .error (.InvalidLongitude longitude)
  else if latitude < -90 ∨ latitude > 90 then
    .error (.InvalidLatitude latitude)
  else
    .ok { datetime := datetime, longitude := longitude, latitude := latitude,
          timezone := timezone }

/-!  ## Vimsopaka-bala helpers (src lines 676–746), needed for claim C10 -/

/-- `is_own_sign` (src lines 718–729). -/
def is_own_sign (planet : String) (sign : ℤ) : Bool :=
  match planet with
  | "Sun" => sign == 4
  | "Moon" => sign == 3
  | "Mars" => sign == 0 || sign == 7
  | "Mercury" => sign == 2 || sign == 5
  | "Jupiter" => sign == 8 || sign == 11
  | "Venus" => sign == 1 || sign == 6
  | "Saturn" => sign == 9 || sign == 10
  | _ => false

/-- Rust `str::contains(substring)`: some contiguous substring of `hay`
equals `needle`. -/
def strContainsAux (needle : List Char) : List Char → Bool
  | [] => needle.isEmpty
  | c :: rest => needle.isPrefixOf (c :: rest) || strContainsAux needle rest

/-- Rust `str::contains` on strings. -/
def rust_str_contains (hay needle : String) : Bool :=
  strContainsAux needle.toList hay.toList

/-- `is_own_hora` (src lines 731–737). -/
def is_own_hora (planet : String) (hora : String) : Bool :=
  match planet with
  | "Sun" => rust_str_contains hora "Meṣa" || rust_str_contains hora "Siṃha"
  | "Mars" => rust_str_contains hora "Meṣa" || rust_str_contains hora "Siṃha"
  | "Moon" => rust_str_contains hora "Vṛṣabha" || rust_str_contains hora "Karka"
  | "Venus" => rust_str_contains hora "Vṛṣabha" || rust_str_contains hora "Karka"
  | _ => false

/-- `is_own_drekkana` (src lines 739–745). -/
def is_own_drekkana (planet : String) (drekkana : String) : Bool :=
  match planet with
  | "Mars" => rust_str_contains drekkana "Meṣa" || rust_str_contains drekkana "Vṛścika"
  | "Sun" => rust_str_contains drekkana "Siṃha"
  | "Jupiter" => rust_str_contains drekkana "Dhanuṣ"
  | _ => false

/-- Characters admitted by Rust's `f64` parsing grammar (digits, sign,
decimal point, exponent markers and the letters of `inf`/`NaN`). -/
def floatGrammarChar (c : Char) : Bool :=
  c.isDigit || c == '+' || c == '-' || c == '.' || c == 'e' || c == 'E' ||
    c == 'i' || c == 'n' || c == 'f' || c == 'N' || c == 'a'

/-- A necessary condition for `str::parse::<f64>` to succeed: the string is
nonempty and all its characters belong to the float grammar. -/
def isNumericString (s : String) : Bool :=
  !s.isEmpty && s.toList.all floatGrammarChar

/-- `calculate_divisional_strength` (src lines 676–716).  The standard-library
float parser `str::parse::<f64>` is an external collaborator and is passed in
as `parse`; `unwrap_or(0.0)` becomes `Option.getD _ 0`. -/
def calculate_divisional_strength (parse : String → Option ℚ)
    (planet : PlanetPosition) : Except VedicError ℚ :=
  let long_deg := planet.sidereal_long_deg
  let s₁ : ℚ := if is_own_sign planet.name (Int.tmod ⌊long_deg / 30⌋ 12) then 5 else 0
  let hora_pos := compute_hora long_deg
  let s₂ : ℚ := if is_own_hora planet.name hora_pos then 2 else 0
  let drek_pos := compute_drekkana long_deg
  let s₃ : ℚ := if is_own_drekkana planet.name drek_pos then 2 else 0
  let nav_pos := compute_navamsa long_deg
  let s₄ : ℚ := if is_own_sign planet.name
      (Int.tmod ⌊((parse nav_pos).getD 0) / 30⌋ 12) then 5 else 0
  let dwad_pos := compute_dwadasamsa long_deg
  let s₅ : ℚ := if is_own_sign planet.name
      (Int.tmod ⌊((parse dwad_pos).getD 0) / 30⌋ 12) then 2 else 0
  .ok (0 + s₁ + s₂ + s₃ + s₄ + s₅)

/-- The D1+D2+D3 portion of `calculate_divisional_strength` (src lines
680–695), named so the claim about the D9/D12 checks can be stated relative
to it. -/
def divisional_strength_d123 (planet : PlanetPosition) : ℚ :=
  let long_deg := planet.sidereal_long_deg
  let s₁ : ℚ := if is_own_sign planet.name (Int.tmod ⌊long_deg / 30⌋ 12) then 5 else 0
  let s₂ : ℚ := if is_own_hora planet.name (compute_hora long_deg) then 2 else 0
  let s₃ : ℚ := if is_own_drekkana planet.name (compute_drekkana long_deg) then 2 else 0
  s₁ + s₂ + s₃

/-!  ## Ashtakavarga (src lines 934–1009) -/

/-- `AshtakavargaChart` (src lines 933–943): eight 12-cell bindu tables.
The `u8` cells are modelled as `ℕ` (at most nine increments of at most 1 per
cell occur, so `u8` wraparound is unreachable). -/
structure AshtakavargaChart where
  sun : Fin 12 → ℕ
  moon : Fin 12 → ℕ
  mars : Fin 12 → ℕ
  mercury : Fin 12 → ℕ
  jupiter : Fin 12 → ℕ
  venus : Fin 12 → ℕ
  saturn : Fin 12 → ℕ
  sarva : Fin 12 → ℕ

/-- `calculate_bindu` (src lines 990–1009): 1 bindu if the house's 1-indexed
offset from the contributor's house is in that contributor's beneficial list. -/
def calculate_bindu (house planet_house : ℕ) (planet : String) :
    Except VedicError ℕ := do
  let beneficial_houses : List ℕ ←
    match planet with
    | "Sun" => pure [1, 2, 4, 7, 8, 9, 10, 11]
    | "Moon" => pure [3, 6, 7, 8, 10, 11]
    | "Mars" => pure [1, 2, 4, 7, 8, 9, 10, 11]
    | "Mercury" => pure [1, 3, 5, 6, 7, 8, 9, 10, 11]
    | "Jupiter" => pure [1, 2, 3, 4, 7, 8, 9, 10, 11]
    | "Venus" => pure [1, 2, 3, 4, 5, 8, 9, 10, 11]
    | "Saturn" => pure [3, 5, 6, 8, 9, 10, 11]
    | _ => .error (.InvalidPlanet planet)
  let relative_house := (house + 12 - planet_house) % 12 + 1
  pure (if beneficial_houses.contains relative_house then 1 else 0)

/-- `(planet.sidereal_long_deg / 30.0).floor() as usize % 12`
(src line 960 and elsewhere). -/
def planet_house_usize (p : PlanetPosition) : ℕ :=
  floorToNat (p.sidereal_long_deg / 30) % 12

/-- One iteration of the inner `for planet in planets` loop of
`calculate_complete_ashtakavarga` (src lines 959–975): add the planet's bindu
for `house` to the matching contributor table. -/
def ashtakavarga_add (house : Fin 12) (chart : AshtakavargaChart)
    (p : PlanetPosition) : Except VedicError AshtakavargaChart := do
  let ph := planet_house_usize p
  match p.name with
  | "Sun" => do
      let b ← calculate_bindu house.val ph "Sun"
      pure { chart with sun := Function.update chart.sun house (chart.sun house + b) }
  | "Moon" => do
      let b ← calculate_bindu house.val ph "Moon"
      pure { chart with moon := Function.update chart.moon house (chart.moon house + b) }
  | "Mars" => do
      let b ← calculate_bindu house.val ph "Mars"
      pure { chart with mars := Function.update chart.mars house (chart.mars house + b) }
  | "Mercury" => do
      let b ← calculate_bindu house.val ph "Mercury"
      pure { chart with mercury := Function.update chart.mercury house (chart.mercury house + b) }
  | "Jupiter" => do
      let b ← calculate_bindu house.val ph "Jupiter"
      pure { chart with jupiter := Function.update chart.jupiter house (chart.jupiter house + b) }
  | "Venus" => do
      let b ← calculate_bindu house.val ph "Venus"
      pure { chart with venus := Function.update chart.venus house (chart.venus house + b) }
  | "Saturn" => do
      let b ← calculate_bindu house.val ph "Saturn"
      pure { chart with saturn := Function.update chart.saturn house (chart.saturn house + b) }
  | _ => pure chart

/-- One iteration of the outer `for house in 0..12` loop of
`calculate_complete_ashtakavarga` (src lines 958–985): process every planet
for this house, then write `sarva[house]` as the sum of the seven contributor
tables at `house`. -/
def ashtakavarga_house (planets : List PlanetPosition)
    (chart : AshtakavargaChart) (house : Fin 12) :
    Except VedicError AshtakavargaChart := do
  let c ← planets.foldlM (fun ch p => ashtakavarga_add house ch p) chart
  pure { c with sarva := (Function.update c.sarva house
      (c.sun house + c.moon house + c.mars house + c.mercury house
        + c.jupiter house + c.venus house + c.saturn house)) }

/-- `calculate_complete_ashtakavarga` (src lines 945–988). -/
def calculate_complete_ashtakavarga (planets : List PlanetPosition) :
    Except VedicError AshtakavargaChart :=
  (List.finRange 12).foldlM (ashtakavarga_house planets)
    { sun := fun _ => 0, moon := fun _ => 0, mars := fun _ => 0,
      mercury := fun _ => 0, jupiter := fun _ => 0, venus := fun _ => 0,
      saturn := fun _ => 0, sarva := fun _ => 0 }

/-- The pure value of `calculate_bindu` for the seven contributor names
(the `Ok` payload of src lines 990–1009; empty beneficial list otherwise). -/
def bindu_val (house planet_house : ℕ) (planet : String) : ℕ :=
  let beneficial_houses : List ℕ :=
    match planet with
    | "Sun" => [1, 2, 4, 7, 8, 9, 10, 11]
    | "Moon" => [3, 6, 7, 8, 10, 11]
    | "Mars" => [1, 2, 4, 7, 8, 9, 10, 11]
    | "Mercury" => [1, 3, 5, 6, 7, 8, 9, 10, 11]
    | "Jupiter" => [1, 2, 3, 4, 7, 8, 9, 10, 11]
    | "Venus" => [1, 2, 3, 4, 5, 8, 9, 10, 11]
    | "Saturn" => [3, 5, 6, 8, 9, 10, 11]
    | _ => []
  if beneficial_houses.contains ((house + 12 - planet_house) % 12 + 1) then 1 else 0

/-- Total bindu contribution of a planet list to contributor `name` at
`house`: what the inner loop of `calculate_complete_ashtakavarga` adds. -/
def contribSum (name : String) (house : ℕ) (ps : List PlanetPosition) : ℕ :=
  (ps.map (fun p =>
    if p.name = name then bindu_val house (planet_house_usize p) name else 0)).sum

/-- The nine body names produced by `compute_all_planets`
(src lines 2418–2444, in push order).  The positions themselves come from the
external `vsop` ephemeris crate; only the name flow matters for the claims,
and `compute_planet_position` (src line 182) stores its `planet_name`
argument verbatim in the `name` field. -/
def compute_all_planets_names : List String :=
  ["Sun", "Moon", "Mars", "Mercury", "Jupiter", "Venus", "Saturn", "Rahu", "Ketu"]

/-!  ## Dignity and strength (src lines 1060–1108, 1801–1890, 1983–2132) -/

/-- `PlanetaryDignity` (src lines 1801–1809). -/
structure PlanetaryDignity where
  moolatrikona : Bool
  own_sign : Bool
  exalted : Bool
  debilitated : Bool
  friendly_sign : Bool
  enemy_sign : Bool
deriving DecidableEq, Repr

/-- `is_friendly_sign` (src lines 1084–1095). -/
def is_friendly_sign (planet : String) (sign : ℤ) : Bool :=
  match planet with
  | "Sun" => ([0, 4, 8] : List ℤ).contains sign
  | "Moon" => ([1, 3, 5] : List ℤ).contains sign
  | "Mars" => ([0, 4, 8] : List ℤ).contains sign
  | "Mercury" => ([2, 5, 6] : List ℤ).contains sign
  | "Jupiter" => ([0, 4, 8] : List ℤ).contains sign
  | "Venus" => ([1, 6, 10] : List ℤ).contains sign
  | "Saturn" => ([9, 10, 11] : List ℤ).contains sign
  | _ => false

/-- `is_enemy_sign` (src lines 1097–1108). -/
def is_enemy_sign (planet : String) (sign : ℤ) : Bool :=
  match planet with
  | "Sun" => ([6, 7, 10] : List ℤ).contains sign
  | "Moon" => ([7, 9, 10] : List ℤ).contains sign
  | "Mars" => ([1, 6, 10] : List ℤ).contains sign
  | "Mercury" => ([8, 9, 11] : List ℤ).contains sign
  | "Jupiter" => ([2, 5, 6] : List ℤ).contains sign
  | "Venus" => ([0, 7, 8] : List ℤ).contains sign
  | "Saturn" => ([0, 4, 8] : List ℤ).contains sign
  | _ => false

/-- `calculate_dignity` (src lines 1060–1082): per-planet fixed table of
moolatrikona/own/exaltation/debilitation signs; `Err(InvalidPlanet)` for any
body outside the seven classical planets (this includes Rahu and Ketu). -/
def calculate_dignity (planet : PlanetPosition) :
    Except VedicError PlanetaryDignity :=
  let sign : ℤ := Int.tmod ⌊planet.sidereal_long_deg / 30⌋ 12
  match planet.name with
  | "Sun" => .ok ⟨sign == 4, sign == 4, sign == 0, sign == 6,
      is_friendly_sign planet.name sign, is_enemy_sign planet.name sign⟩
  | "Moon" => .ok ⟨sign == 3, sign == 3, sign == 1, sign == 7,
      is_friendly_sign planet.name sign, is_enemy_sign planet.name sign⟩
  | "Mars" => .ok ⟨sign == 0, sign == 7, sign == 9, sign == 3,
      is_friendly_sign planet.name sign, is_enemy_sign planet.name sign⟩
  | "Mercury" => .ok ⟨sign == 5, sign == 2, sign == 5, sign == 11,
      is_friendly_sign planet.name sign, is_enemy_sign planet.name sign⟩
  | "Jupiter" => .ok ⟨sign == 8, sign == 11, sign == 3, sign == 9,
      is_friendly_sign planet.name sign, is_enemy_sign planet.name sign⟩
  | "Venus" => .ok ⟨sign == 6, sign == 1, sign == 11, sign == 5,
      is_friendly_sign planet.name sign, is_enemy_sign planet.name sign⟩
  | "Saturn" => .ok ⟨sign == 9, sign == 10, sign == 6, sign == 0,
      is_friendly_sign planet.name sign, is_enemy_sign planet.name sign⟩
  | _ => .error (.InvalidPlanet planet.name)

/-- `PlanetaryStrength` (src lines 1811–1819). -/
structure PlanetaryStrength where
  sthan_bala : ℚ
  dig_bala : ℚ
  kala_bala : ℚ
  drik_bala : ℚ
  naisargika_bala : ℚ
  total : ℚ
deriving DecidableEq, Repr

/-- `calculate_shadbala` (src lines 1983–2132): six-fold strength; the first
step looks up `calculate_dignity`, so any error there (e.g. Rahu/Ketu)
propagates. -/
def calculate_shadbala (planet : PlanetPosition) (jd asc : ℚ) :
    Except VedicError PlanetaryStrength := do
  let dignity ← calculate_dignity planet
  let sthan_bala : ℚ :=
    ((((0 + (if dignity.exalted then 1 else 0))
      + (if dignity.own_sign then 0.75 else 0))
      + (if dignity.moolatrikona then 0.5 else 0))
      + (if dignity.friendly_sign then 0.25 else 0))
      - (if dignity.debilitated then 0.5 else 0)
      - (if dignity.enemy_sign then 0.25 else 0)
  let house : ℤ := Int.tmod ⌊(planet.sidereal_long_deg - asc) / 30⌋ 12
  let dig_bala : ℚ :=
    match planet.name with
    | "Sun" => if house == 9 then 1 else 0
    | "Moon" => if house == 3 then 1 else 0
    | "Mars" => if house == 9 then 1 else 0
    | "Mercury" => if house == 0 then 1 else 0
    | "Jupiter" => if house == 0 then 1 else 0
    | "Venus" => if house == 3 then 1 else 0
    | "Saturn" => if house == 6 then 1 else 0
    | _ => 0
  let lst := local_sidereal_time jd 0
  let is_day := decide (180 ≤ lst)
  let kala_bala : ℚ :=
    match planet.name with
    | "Sun" => if is_day then 0.5 else 0
    | "Jupiter" => if is_day then 0.5 else 0
    | "Saturn" => if is_day then 0.5 else 0
    | "Moon" => if !is_day then 0.5 else 0
    | "Venus" => if !is_day then 0.5 else 0
    | "Mars" => if !is_day then 0.5 else 0
    | _ => 0
  let drik_bala : ℚ :=
    match planet.name with
    | "Mars" =>
        (if house == 3 || house == 6 || house == 9 then 1 else 0)
          + (if house == 7 then 0.5 else 0)
    | "Jupiter" =>
        (if house == 4 || house == 7 || house == 8 then 1 else 0)
          + (if house == 5 then 0.75 else 0)
    | "Saturn" =>
        (if house == 2 || house == 6 || house == 9 then 1 else 0)
          + (if house == 3 then 0.5 else 0)
    | _ => if house == 6 then 0.5 else 0
  let naisargika_bala : ℚ :=
    match planet.name with
    | "Sun" => 1
    | "Moon" => 0.857
    | "Mars" => 0.714
    | "Mercury" => 0.571
    | "Jupiter" => 0.429
    | "Venus" => 0.286
    | "Saturn" => 0.143
    | _ => 0
  let total := sthan_bala + dig_bala + kala_bala + drik_bala + naisargika_bala
  pure ⟨sthan_bala, dig_bala, kala_bala, drik_bala, naisargika_bala, total⟩

/-- `PlanetaryRelationships` (src lines 1821–1828). -/
structure PlanetaryRelationships where
  natural_friends : List String
  natural_enemies : List String
  natural_neutrals : List String
  temporary_friends : List String
  temporary_enemies : List String
deriving DecidableEq, Repr

/-- `calculate_relationships` (src lines 1830–1890). -/
def calculate_relationships (planet : PlanetPosition) :
    Except VedicError PlanetaryRelationships := do
  let (friends, enemies, neutrals) ←
    match planet.name with
    | "Sun" => pure (["Moon", "Mars", "Jupiter"], ["Venus", "Saturn"], ["Mercury"])
    | "Moon" => pure (["Sun", "Mercury"], ["Rahu", "Ketu"],
        ["Mars", "Jupiter", "Venus", "Saturn"])
    | "Mars" => pure (["Sun", "Moon", "Jupiter"], ["Mercury"], ["Venus", "Saturn"])
    | "Mercury" => pure (["Sun", "Venus"], ["Moon"], ["Mars", "Jupiter", "Saturn"])
    | "Jupiter" => pure (["Sun", "Moon", "Mars"], ["Mercury", "Venus"], ["Saturn"])
    | "Venus" => pure (["Mercury", "Saturn"], ["Sun", "Moon"], ["Mars", "Jupiter"])
    | "Saturn" => pure (["Mercury", "Venus"], ["Sun", "Moon", "Mars"], ["Jupiter"])
    | "Rahu" => pure (["Venus", "Saturn"], ["Sun", "Moon"],
        ["Mars", "Mercury", "Jupiter"])
    | "Ketu" => pure (["Venus", "Saturn"], ["Sun", "Moon"],
        ["Mars", "Mercury", "Jupiter"])
    | _ => .error (.InvalidPlanet planet.name)
  pure ⟨friends, enemies, neutrals, [], []⟩

/-- `PlanetInfo` (src lines 844–850). -/
structure PlanetInfo where
  basic_info : PlanetPosition
  dignity : PlanetaryDignity
  strength : PlanetaryStrength
  relationships : PlanetaryRelationships
deriving DecidableEq, Repr

/-- `PlanetInfo::new` (src lines 1291–1300): the struct literal evaluates
`calculate_dignity` first, so its error propagates. -/
def PlanetInfo.new (position : PlanetPosition) (asc jd : ℚ) :
    Except VedicError PlanetInfo := do
  let dignity ← calculate_dignity position
  let strength ← calculate_shadbala position jd asc
  let relationships ← calculate_relationships position
  pure ⟨position, dignity, strength, relationships⟩

/-!  ## Vimshottari dasha (src lines 1275–1289, 1892–1981) -/

/-- `DashaPeriod` (src lines 1283–1289).  The source field `end` is renamed
`stop` because `end` is a Lean keyword. -/
structure DashaPeriod where
  planet : String
  start : ℚ
  stop : ℚ
  years : ℚ
deriving DecidableEq, Repr

/-- `VimshottariDasha` (src lines 1275–1281). -/
structure VimshottariDasha where
  maha_dasha : DashaPeriod
  antara_dasha : DashaPeriod
  pratyantara_dasha : DashaPeriod
  sookshma_dasha : DashaPeriod
deriving DecidableEq, Repr

/-- `DASHA_YEARS` (src lines 1894–1904), exactly as written in the source —
note that it pairs `20.0` with `"Ketu"` and `7.0` with `"Venus"`. -/
def DASHA_YEARS : List (ℚ × String) :=
  [(6, "Sun"), (10, "Moon"), (7, "Mars"), (18, "Rahu"), (16, "Jupiter"),
   (19, "Saturn"), (17, "Mercury"), (20, "Ketu"), (7, "Venus")]

/-- `nakshatra_lords` (src lines 1913–1917). -/
def nakshatra_lords : List String :=
  ["Ketu", "Venus", "Sun", "Moon", "Mars", "Rahu", "Jupiter", "Saturn",
   "Mercury", "Ketu", "Venus", "Sun", "Moon", "Mars", "Rahu", "Jupiter",
   "Saturn", "Mercury", "Ketu", "Venus", "Sun", "Moon", "Mars", "Rahu",
   "Jupiter", "Saturn", "Mercury"]

/-- `calculate_vimsottari_dasha` (src lines 1892–1981). -/
def calculate_vimsottari_dasha (moon_longitude birth_jd : ℚ) :
    Except VedicError VimshottariDasha := do
  let nak_deg : ℚ := 13.333333
  let nak_idx : ℕ := floorToNat (moon_longitude / nak_deg) % 27
  let prog : ℚ := rustRem moon_longitude nak_deg / nak_deg
  let start_lord := nakshatra_lords.getD nak_idx ""
  let lord_idx₀ ←
    match DASHA_YEARS.findIdx? (fun pr => pr.2 == start_lord) with
    | some i => pure i
    | none => .error (.CalculationError "Invalid dasha lord")
  let elapsed_years := (DASHA_YEARS.getD lord_idx₀ (0, "")).1 * prog
  let start_jd := birth_jd - elapsed_years * 365.25
  let end_jd := start_jd + (DASHA_YEARS.getD lord_idx₀ (0, "")).1 * 365.25
  let maha_dasha : DashaPeriod :=
    ⟨(DASHA_YEARS.getD lord_idx₀ (0, "")).2, start_jd, end_jd,
      (DASHA_YEARS.getD lord_idx₀ (0, "")).1⟩
  let lord_idx₁ := (lord_idx₀ + 1) % 9
  let antar_years := (DASHA_YEARS.getD lord_idx₁ (0, "")).1 * maha_dasha.years / 120
  let antar_end := start_jd + antar_years * 365.25
  let antara_dasha : DashaPeriod :=
    ⟨(DASHA_YEARS.getD lord_idx₁ (0, "")).2, start_jd, antar_end, antar_years⟩
  let lord_idx₂ := (lord_idx₁ + 1) % 9
  let prat_years := (DASHA_YEARS.getD lord_idx₂ (0, "")).1 * antar_years / 120
  let prat_end := start_jd + prat_years * 365.25
  let pratyantara_dasha : DashaPeriod :=
    ⟨(DASHA_YEARS.getD lord_idx₂ (0, "")).2, start_jd, prat_end, prat_years⟩
  let lord_idx₃ := (lord_idx₂ + 1) % 9
  let sook_years := (DASHA_YEARS.getD lord_idx₃ (0, "")).1 * prat_years / 120
  let sook_end := start_jd + sook_years * 365.25
  let sookshma_dasha : DashaPeriod :=
    ⟨(DASHA_YEARS.getD lord_idx₃ (0, "")).2, start_jd, sook_end, sook_years⟩
  pure ⟨maha_dasha, antara_dasha, pratyantara_dasha, sookshma_dasha⟩

/-!  ## Yoga detection (src lines 2176–2416, 2446–2514) -/

/-- `Yoga` (src lines 121–126).  The `{}` rendering of an `f64` inside
`format!` is modelled as the decimal rendering of the exact rational. -/
structure Yoga where
  name : String
  description : String
  strength : ℚ
deriving DecidableEq, Repr

/-- `is_kendra_lord` (src lines 2233–2249). -/
def is_kendra_lord (planet : String) (house : ℤ) : Bool :=
  (planet == "Mars" && house == 0) || (planet == "Venus" && house == 3) ||
  (planet == "Mercury" && house == 6) || (planet == "Moon" && house == 9) ||
  (planet == "Sun" && house == 0) || (planet == "Mercury" && house == 3) ||
  (planet == "Venus" && house == 6) || (planet == "Mars" && house == 9) ||
  (planet == "Jupiter" && house == 0) || (planet == "Saturn" && house == 3) ||
  (planet == "Saturn" && house == 6) || (planet == "Jupiter" && house == 9)

/-- `is_trikona_lord` (src lines 2251–2256). -/
def is_trikona_lord (planet : String) (house : ℤ) : Bool :=
  (planet == "Mars" && house == 0) || (planet == "Sun" && house == 4) ||
  (planet == "Jupiter" && house == 8) || (planet == "Venus" && house == 0) ||
  (planet == "Mercury" && house == 4) || (planet == "Saturn" && house == 8)

/-- `get_ruling_signs` (src lines 2460–2472). -/
def get_ruling_signs (planet : String) : List ℤ :=
  match planet with
  | "Sun" => [4]
  | "Moon" => [3]
  | "Mars" => [0, 7]
  | "Mercury" => [2, 5]
  | "Jupiter" => [8, 11]
  | "Venus" => [1, 6]
  | "Saturn" => [9, 10]
  | _ => []

/-- `are_in_mutual_reception` (src lines 2447–2457). -/
def are_in_mutual_reception (planet1 planet2 : PlanetPosition) : Bool :=
  let sign1 : ℤ := Int.tmod ⌊planet1.sidereal_long_deg / 30⌋ 12
  let sign2 : ℤ := Int.tmod ⌊planet2.sidereal_long_deg / 30⌋ 12
  (get_ruling_signs planet1.name).contains sign2 &&
    (get_ruling_signs planet2.name).contains sign1

/-- `is_in_own_or_exaltation` (src lines 2475–2498). -/
def is_in_own_or_exaltation (planet : PlanetPosition) : Bool :=
  let sign : ℤ := Int.tmod ⌊planet.sidereal_long_deg / 30⌋ 12
  match planet.name with
  | "Sun" => sign == 4 || sign == 0
  | "Moon" => sign == 3 || sign == 1
  | "Mars" => sign == 0 || sign == 7 || sign == 9
  | "Mercury" => sign == 2 || sign == 5
  | "Jupiter" => sign == 8 || sign == 11 || sign == 3
  | "Venus" => sign == 1 || sign == 6 || sign == 11
  | "Saturn" => sign == 9 || sign == 10 || sign == 6
  | _ => false

/-- `is_debilitated` (src lines 2501–2514). -/
def is_debilitated (planet : PlanetPosition) : Bool :=
  let sign : ℤ := Int.tmod ⌊planet.sidereal_long_deg / 30⌋ 12
  match planet.name with
  | "Sun" => sign == 6
  | "Moon" => sign == 7
  | "Mars" => sign == 3
  | "Mercury" => sign == 11
  | "Jupiter" => sign == 9
  | "Venus" => sign == 5
  | "Saturn" => sign == 0
  | _ => false

/-- `calculate_raja_yoga_strength` (src lines 2258–2280). -/
def calculate_raja_yoga_strength (planet1 planet2 : PlanetPosition) :
    Except VedicError ℚ :=
  let s₀ : ℚ := 1
  let s₁ := if are_in_mutual_reception planet1 planet2 then s₀ + 0.5 else s₀
  let s₂ := if is_in_own_or_exaltation planet1 then s₁ + 0.25 else s₁
  let s₃ := if is_in_own_or_exaltation planet2 then s₂ + 0.25 else s₂
  let s₄ := if is_debilitated planet1 || is_debilitated planet2 then s₃ - 0.5 else s₃
  .ok (min (max s₄ 0) 2)

/-- `check_raja_yogas` (src lines 2196–2231): nested loops over ordered planet
pairs, appending one `Yoga` per qualifying kendra-lord/trikona-lord pair. -/
def check_raja_yogas (planets : List PlanetPosition) (yogas : List Yoga) :
    Except VedicError (List Yoga) :=
  planets.foldlM (fun acc1 planet1 =>
    planets.foldlM (fun acc2 planet2 => do
      if planet1.name ≠ planet2.name then
        let house1 : ℤ := Int.tmod ⌊planet1.sidereal_long_deg / 30⌋ 12
        let house2 : ℤ := Int.tmod ⌊planet2.sidereal_long_deg / 30⌋ 12
        let k1 := is_kendra_lord planet1.name house1
        let t1 := is_trikona_lord planet1.name house1
        let k2 := is_kendra_lord planet2.name house2
        let t2 := is_trikona_lord planet2.name house2
        if (k1 && t2) || (k2 && t1) then
          let strength ← calculate_raja_yoga_strength planet1 planet2
          pure (acc2 ++ [⟨"Raja Yoga",
            "Raja Yoga formed by " ++ planet1.name ++ " ("
              ++ toString planet1.sidereal_long_deg ++ "°) and "
              ++ planet2.name ++ " (" ++ toString planet2.sidereal_long_deg
              ++ "°)", strength⟩])
        else
          pure acc2
      else
        pure acc2) acc1) yogas

/-- `check_dhana_yogas` (src lines 2282–2302). -/
def check_dhana_yogas (planets : List PlanetPosition) (yogas : List Yoga) :
    Except VedicError (List Yoga) :=
  planets.foldlM (fun acc1 planet =>
    let house : ℤ := ⌊planet.sidereal_long_deg / 30⌋
    if house == 1 || house == 10 then
      planets.foldlM (fun acc2 other =>
        let other_house : ℤ := ⌊other.sidereal_long_deg / 30⌋
        if other_house == 1 || other_house == 10 then
          pure (acc2 ++ [⟨"Dhana Yoga",
            "Formed by " ++ planet.name ++ " and " ++ other.name, 0.75⟩])
        else
          pure acc2) acc1
    else
      pure acc1) yogas

/-- `check_mahapurusha_yogas` (src lines 2304–2370). -/
def check_mahapurusha_yogas (planets : List PlanetPosition) (yogas : List Yoga) :
    Except VedicError (List Yoga) :=
  planets.foldlM (fun acc planet => do
    let house : ℤ := Int.tmod ⌊planet.sidereal_long_deg / 30⌋ 12
    let sign : ℤ := Int.tmod ⌊planet.sidereal_long_deg / 30⌋ 12
    if ([0, 3, 6, 9] : List ℤ).contains house then
      match planet.name with
      | "Mars" =>
          if sign == 0 || sign == 7 || sign == 9 then
            pure (acc ++ [⟨"Ruchaka Yoga",
              "Mars in own/exaltation sign and Kendra", 1⟩])
          else pure acc
      | "Mercury" =>
          if sign == 2 || sign == 5 then
            pure (acc ++ [⟨"Bhadra Yoga",
              "Mercury in own/exaltation sign and Kendra", 1⟩])
          else pure acc
      | "Jupiter" =>
          if sign == 8 || sign == 11 || sign == 3 then
            pure (acc ++ [⟨"Hamsa Yoga",
              "Jupiter in own/exaltation sign and Kendra", 1⟩])
          else pure acc
      | "Venus" =>
          if sign == 1 || sign == 6 || sign == 11 then
            pure (acc ++ [⟨"Malavya Yoga",
              "Venus in own/exaltation sign and Kendra", 1⟩])
          else pure acc
      | "Saturn" =>
          if sign == 9 || sign == 10 || sign == 6 then
            pure (acc ++ [⟨"Sasa Yoga",
              "Saturn in own/exaltation sign and Kendra", 1⟩])
          else pure acc
      | _ => pure acc
    else
      pure acc) yogas

/-- The `for i in 0..24` consecutive-house scan of `check_nabhasa_yogas`
(src lines 2380–2396): counts consecutive occupied houses (indices mod 12)
and reports success as soon as three are found. -/
def rajju_scan (occupied : List Bool) (i consecutive : ℕ) : Bool :=
  if i < 24 then
    if occupied.getD (i % 12) false then
      if 3 ≤ consecutive + 1 then true
      else rajju_scan occupied (i + 1) (consecutive + 1)
    else rajju_scan occupied (i + 1) 0
  else false
termination_by 24 - i

/-- `check_nabhasa_yogas` (src lines 2372–2416). -/
def check_nabhasa_yogas (planets : List PlanetPosition) (yogas : List Yoga) :
    Except VedicError (List Yoga) :=
  let occupied := planets.foldl
    (fun occ p => occ.set (planet_house_usize p) true) (List.replicate 12 false)
  let yogas₁ :=
    if rajju_scan occupied 0 0 then
      yogas ++ [⟨"Rajju Yoga", "Three or more planets in successive houses", 0.75⟩]
    else yogas
  let in_kendras := planets.all
    (fun p => ([0, 3, 6, 9] : List ℤ).contains
      (Int.tmod ⌊p.sidereal_long_deg / 30⌋ 12))
  let yogas₂ :=
    if in_kendras then
      yogas₁ ++ [⟨"Musala Yoga", "All planets in kendras", 1⟩]
    else yogas₁
  .ok yogas₂

/-- `calculate_all_yogas` (src lines 2177–2193): runs the four checks in
order, accumulating into one list.  The `asc` parameter is declared but
never read by any of the checks. -/
def calculate_all_yogas (planets : List PlanetPosition) (asc : ℚ) :
    Except VedicError (List Yoga) := do
  let yogas₁ ← check_raja_yogas planets []
  let yogas₂ ← check_dhana_yogas planets yogas₁
  let yogas₃ ← check_mahapurusha_yogas planets yogas₂
  let yogas₄ ← check_nabhasa_yogas planets yogas₃
  pure yogas₄

/-!  ## General lemmas about the numeric helpers -/

theorem rustRemEuclid_nonneg (x y : ℚ) (hy : 0 < y) : 0 ≤ rustRemEuclid x y := by
  have h : rustRemEuclid x y = y * Int.fract (x / y) := by
    unfold rustRemEuclid Int.fract
    field_simp
  rw [h]
  exact mul_nonneg hy.le (Int.fract_nonneg _)

theorem rustRemEuclid_lt (x y : ℚ) (hy : 0 < y) : rustRemEuclid x y < y := by
  have h : rustRemEuclid x y = y * Int.fract (x / y) := by
    unfold rustRemEuclid Int.fract
    field_simp
  rw [h]
  calc y * Int.fract (x / y) < y * 1 := by
        exact mul_lt_mul_of_pos_left (Int.fract_lt_one _) hy
    _ = y := mul_one y

theorem rustRemEuclid_eq_self {x : ℚ} (h0 : 0 ≤ x) (h1 : x < 360) :
    rustRemEuclid x 360 = x := by
  have hf : ⌊x / 360⌋ = 0 := by
    rw [Int.floor_eq_zero_iff]
    constructor
    · positivity
    · rw [div_lt_one (by norm_num : (0:ℚ) < 360)]
      exact h1
  unfold rustRemEuclid
  rw [hf]
  ring

theorem rustRem_eq_remEuclid_of_nonneg {x : ℚ} (h0 : 0 ≤ x) (y : ℚ) (hy : 0 ≤ y) :
    rustRem x y = rustRemEuclid x y := by
  unfold rustRem rustRemEuclid ratTrunc
  rw [if_pos (by positivity)]

/-!  ## Claim theorems -/

/-- Claim C9: `date_to_jd(2000, 1, 1, 12, 0, 0)` is exactly `2451545.0`,
the J2000.0 epoch Julian Day. -/
theorem date_to_jd_j2000 : date_to_jd 2000 1 1 12 0 0 = 2451545 := by
  unfold date_to_jd
  norm_num

/-- Claim C4: yoga detection is independent of the ascendant argument —
`calculate_all_yogas` returns the same list of `Yoga` records for any two
ascendant values, because none of the four checks reads the ascendant. -/
theorem calculate_all_yogas_ascendant_independent
    (planets : List PlanetPosition) (a₁ a₂ : ℚ) :
    calculate_all_yogas planets a₁ = calculate_all_yogas planets a₂ := rfl

/-- Claim C5: `BirthData::new` rejects a longitude outside `[-180,180]` with
`InvalidLongitude`, then a latitude outside `[-90,90]` with
`InvalidLatitude`, and otherwise returns `Ok` with the longitude and
latitude stored exactly as passed. -/
theorem birthdata_new_validation (datetime : ℤ) (timezone : String)
    (longitude latitude : ℚ) :
    (longitude < -180 ∨ longitude > 180 →
      BirthData.new datetime longitude latitude timezone =
        .error (.InvalidLongitude longitude)) ∧
    (¬(longitude < -180 ∨ longitude > 180) → (latitude < -90 ∨ latitude > 90) →
      BirthData.new datetime longitude latitude timezone =
        .error (.InvalidLatitude latitude)) ∧
    (¬(longitude < -180 ∨ longitude > 180) → ¬(latitude < -90 ∨ latitude > 90) →
      BirthData.new datetime longitude latitude timezone =
        .ok ⟨datetime, longitude, latitude, timezone⟩) := by
  refine ⟨fun h => ?_, fun h1 h2 => ?_, fun h1 h2 => ?_⟩
  · unfold BirthData.new
    rw [if_pos h]
  · unfold BirthData.new
    rw [if_neg h1, if_pos h2]
  · unfold BirthData.new
    rw [if_neg h1, if_neg h2]

/-- Witness for C5: the three branches of `birthdata_new_validation` at
concrete inputs. -/
theorem birthdata_new_validation_witness :
    BirthData.new 0 200 0 "UTC" = .error (.InvalidLongitude 200) ∧
    BirthData.new 0 76 95 "UTC" = .error (.InvalidLatitude 95) ∧
    BirthData.new 0 76 10 "UTC" = .ok ⟨0, 76, 10, "UTC"⟩ :=
  ⟨(birthdata_new_validation 0 "UTC" 200 0).1 (by norm_num),
   (birthdata_new_validation 0 "UTC" 76 95).2.1 (by norm_num) (by norm_num),
   (birthdata_new_validation 0 "UTC" 76 10).2.2 (by norm_num) (by norm_num)⟩

/-- Claim C1 (code bug evaluation): for a Moon at 0° sidereal longitude the
starting lord is Ketu (nakshatra Ashwini), and the code's maha-dasha lasts
**20** years — not the 7 years the Vimshottari table of the spec assigns to
Ketu — because `DASHA_YEARS` pairs `20.0` with Ketu and `7.0` with Venus.
The code's nine weights still sum to 120. -/
theorem vimsottari_ketu_maha_years_eval :
    (calculate_vimsottari_dasha 0 2451545).map
      (fun v => (v.maha_dasha.planet, v.maha_dasha.years)) = .ok ("Ketu", 20) ∧
    (20 : ℚ) ≠ 7 ∧
    (DASHA_YEARS.map Prod.fst).sum = 120 := by
  refine ⟨?_, by norm_num, by norm_num [DASHA_YEARS]⟩
  simp only [calculate_vimsottari_dasha]
  have h1 : floorToNat ((0 : ℚ) / 13.333333) % 27 = 0 := by
    have hf : ⌊(0 : ℚ) / 13.333333⌋ = 0 := by norm_num
    simp [floorToNat, hf]
  rw [h1]
  have h2 : nakshatra_lords.getD 0 "" = "Ketu" := by rfl
  rw [h2]
  have h3 : DASHA_YEARS.findIdx? (fun pr => pr.2 == "Ketu") = some 7 := by
    norm_num [DASHA_YEARS, List.findIdx?]
    decide
  rw [h3]
  norm_num [DASHA_YEARS, List.getD, Except.map, Except.pure, pure, Except.bind, bind, rustRem, ratTrunc]

/-- Claim C8 (code bug evaluation): for a Moon at 110° (nakshatra index 8,
lord Mercury, maha years 17) the antara lord is Ketu and the code computes
its years as `20 · 17 / 120 = 17/6`, using the swapped `DASHA_YEARS` weight
20 for Ketu, whereas the spec's cycle weight for Ketu is 7
(`7 · 17 / 120 = 119/120`). -/
theorem vimsottari_antara_weight_eval :
    (calculate_vimsottari_dasha 110 2451545).map
      (fun v => (v.maha_dasha.planet, v.maha_dasha.years,
        v.antara_dasha.planet, v.antara_dasha.years)) =
      .ok ("Mercury", 17, "Ketu", 17 / 6) ∧
    (17 / 6 : ℚ) ≠ 7 * 17 / 120 := by
  refine ⟨?_, by norm_num⟩
  simp only [calculate_vimsottari_dasha]
  have h1 : floorToNat ((110 : ℚ) / 13.333333) % 27 = 8 := by
    have hf : ⌊(110 : ℚ) / 13.333333⌋ = 8 := by norm_num
    simp [floorToNat, hf]
  rw [h1]
  have h2 : nakshatra_lords.getD 8 "" = "Mercury" := by rfl
  rw [h2]
  have h3 : DASHA_YEARS.findIdx? (fun pr => pr.2 == "Mercury") = some 6 := by
    norm_num [DASHA_YEARS, List.findIdx?]
    decide
  rw [h3]
  norm_num [DASHA_YEARS, List.getD, Except.map, Except.pure, pure, Except.bind, bind, rustRem, ratTrunc]

/-- Counterexample for claim C2: for ascendant 10° the offset-preserving
implementation `compute_whole_sign_houses` returns 10° as cusp 1 — the
ascendant degree itself — not the sign boundary `floor(10/30)·30 = 0°`
demanded by the claim for both functions. -/
theorem compute_whole_sign_houses_offset_counterexample :
    compute_whole_sign_houses 10 0 = 10 ∧
    ((⌊(10 : ℚ) / 30⌋ : ℚ) * 30 = 0) ∧
    compute_whole_sign_houses 10 0 ≠ (⌊(10 : ℚ) / 30⌋ : ℚ) * 30 := by
  have h10 : ⌊(10 : ℚ) / 360⌋ = 0 := by norm_num
  have h30 : ⌊(10 : ℚ) / 30⌋ = 0 := by norm_num
  have hval : compute_whole_sign_houses 10 0 = 10 := by
    simp only [compute_whole_sign_houses, rustRemEuclid, round8, rustRound,
      h10, h30]
    norm_num
  refine ⟨hval, by norm_num, ?_⟩
  rw [hval]
  norm_num

/-- Claim C2 (amended): `calculate_whole_sign_houses` truncates to the sign
boundary — cusp 1 is `floor((asc mod 360)/30)·30` and cusp `i` is cusp 1 plus
`i·30`, individually normalized into `[0,360)` — while
`compute_whole_sign_houses` preserves the ascendant's in-sign offset: its
cusp `i` is `(asc mod 360) + i·30` normalized into `[0,360)` and rounded to
8 decimal places. -/
theorem whole_sign_houses_two_policies (asc : ℚ) (i : Fin 12) :
    calculate_whole_sign_houses asc 0 =
      (⌊rustRemEuclid asc 360 / 30⌋ : ℚ) * 30 ∧
    calculate_whole_sign_houses asc i =
      rustRemEuclid (calculate_whole_sign_houses asc 0 + (i : ℚ) * 30) 360 ∧
    compute_whole_sign_houses asc i =
      round8 (rustRemEuclid (rustRemEuclid asc 360 + (i : ℚ) * 30) 360) := by
  have h360 : (0 : ℚ) < 360 := by norm_num
  have hnn : 0 ≤ rustRemEuclid asc 360 := rustRemEuclid_nonneg asc 360 h360
  have hlt : rustRemEuclid asc 360 < 360 := rustRemEuclid_lt asc 360 h360
  have hfnn : (0 : ℤ) ≤ ⌊rustRemEuclid asc 360 / 30⌋ := by
    rw [Int.floor_nonneg]
    positivity
  have hflt : ⌊rustRemEuclid asc 360 / 30⌋ < 12 := by
    rw [Int.floor_lt]
    rw [div_lt_iff₀ (by norm_num : (0:ℚ) < 30)]
    calc rustRemEuclid asc 360 < 360 := hlt
      _ ≤ (12 : ℤ) * 30 := by norm_num
  have hsb₀ : (0 : ℚ) ≤ (⌊rustRemEuclid asc 360 / 30⌋ : ℚ) * 30 := by
    have : (0 : ℚ) ≤ (⌊rustRemEuclid asc 360 / 30⌋ : ℚ) := by
      exact_mod_cast hfnn
    nlinarith
  have hsb₁ : (⌊rustRemEuclid asc 360 / 30⌋ : ℚ) * 30 < 360 := by
    have h11 : (⌊rustRemEuclid asc 360 / 30⌋ : ℚ) ≤ 11 := by
      have : ⌊rustRemEuclid asc 360 / 30⌋ ≤ 11 := by omega
      exact_mod_cast this
    nlinarith
  have hcusp0 : calculate_whole_sign_houses asc 0 =
      (⌊rustRemEuclid asc 360 / 30⌋ : ℚ) * 30 := by
    simp only [calculate_whole_sign_houses]
    have hz : ((0 : Fin 12) : ℚ) = 0 := by norm_num
    rw [hz, mul_comm (0:ℚ) 30, mul_zero, add_zero]
    exact rustRemEuclid_eq_self hsb₀ hsb₁
  refine ⟨hcusp0, ?_, ?_⟩
  · rw [hcusp0]
    simp only [calculate_whole_sign_houses]
  · simp only [compute_whole_sign_houses]
    congr 1
    congr 1
    ring

/-- Dividing the full longitude by a division arc `30/n` splits into the
rasi contribution `n·⌊L/30⌋` plus the position-in-sign contribution. -/
theorem floor_div_arc_split (L : ℚ) (hL : 0 ≤ L) (n : ℕ) (hn : 0 < n) :
    ⌊L / (30 / (n : ℚ))⌋ = ⌊rustRem L 30 / (30 / (n : ℚ))⌋ + n * ⌊L / 30⌋ := by
  have hp : rustRem L 30 = L - 30 * (⌊L / 30⌋ : ℚ) := by
    rw [rustRem_eq_remEuclid_of_nonneg hL 30 (by norm_num)]
    unfold rustRemEuclid
    ring
  have hnq : (0 : ℚ) < (n : ℚ) := by exact_mod_cast hn
  have key : L / (30 / (n : ℚ)) =
      rustRem L 30 / (30 / (n : ℚ)) + ((n * ⌊L / 30⌋ : ℤ) : ℚ) := by
    rw [hp]
    push_cast
    field_simp
    ring
  rw [key, Int.floor_add_int]

/-- The position within the sign is nonnegative for nonnegative longitude. -/
theorem rustRem_thirty_nonneg {L : ℚ} (hL : 0 ≤ L) : 0 ≤ rustRem L 30 := by
  rw [rustRem_eq_remEuclid_of_nonneg hL 30 (by norm_num)]
  exact rustRemEuclid_nonneg L 30 (by norm_num)

/-- Counterexample for claim C3: at sidereal longitude 30° the D16
computation of `calculate_shodasamsa_chart` yields sign index 8, while the
generic formula `(floor(posInSign/(30/16)) + rasiIndex·16) mod 12` yields 4. -/
theorem shodasamsa_formula_counterexample :
    shodasamsa_sign 30 = 8 ∧ varga_formula 16 30 = 4 ∧
    shodasamsa_sign 30 ≠ varga_formula 16 30 := by
  have e1 : ⌊(30 : ℚ) / (30 / 16)⌋ = 16 := by norm_num
  have e2 : ⌊(30 : ℚ) / 30⌋ = 1 := by norm_num
  have e3 : rustRem (30 : ℚ) 30 = 0 := by
    unfold rustRem ratTrunc
    norm_num
  have h1 : shodasamsa_sign 30 = 8 := by
    unfold shodasamsa_sign
    rw [e1, e2]
    decide
  have h2 : varga_formula 16 30 = 4 := by
    unfold varga_formula
    rw [e3, e2]
    norm_num
  exact ⟨h1, h2, by rw [h1, h2]; decide⟩

/-- Claim C3 (amended): `compute_navamsa` (D9) does follow the generic
divisional formula; but the inline D16 (`calculate_shodasamsa_chart`) and
D11 (`calculate_rudramsa_chart`) computations divide the full longitude
rather than the position in sign, so their sign index is
`(floor(posInSign/(30/N)) + rasiIndex·2N) mod 12` — the rasi term enters
twice. -/
theorem navamsa_formula_and_inline_double (lon : ℚ) (h0 : 0 ≤ lon)
    (h1 : lon < 360) :
    compute_navamsa lon = get_rasi_name (varga_formula 9 lon) ∧
    shodasamsa_sign lon =
      Int.emod (⌊rustRem lon 30 / (30 / (16 : ℚ))⌋ + ⌊lon / 30⌋ * (2 * 16)) 12 ∧
    rudramsa_sign lon =
      Int.emod (⌊rustRem lon 30 / (30 / (11 : ℚ))⌋ + ⌊lon / 30⌋ * (2 * 11)) 12 := by
  have hr : (0 : ℤ) ≤ ⌊lon / 30⌋ := by
    rw [Int.floor_nonneg]
    positivity
  have hpos : 0 ≤ rustRem lon 30 := rustRem_thirty_nonneg h0
  have hfl9 : (0 : ℤ) ≤ ⌊rustRem lon 30 / (30 / (9 : ℚ))⌋ := by
    rw [Int.floor_nonneg]
    positivity
  have hfl16 : (0 : ℤ) ≤ ⌊rustRem lon 30 / (30 / (16 : ℚ))⌋ := by
    rw [Int.floor_nonneg]
    positivity
  have hfl11 : (0 : ℤ) ≤ ⌊rustRem lon 30 / (30 / (11 : ℚ))⌋ := by
    rw [Int.floor_nonneg]
    positivity
  refine ⟨?_, ?_, ?_⟩
  · simp only [compute_navamsa, varga_formula, Nat.cast_ofNat]
    congr 1
    exact Int.tmod_eq_emod (by omega) (by norm_num)
  · have hsplit := floor_div_arc_split lon h0 16 (by norm_num)
    push_cast at hsplit
    unfold shodasamsa_sign
    rw [hsplit, Int.tmod_eq_emod (by omega) (by norm_num)]
    congr 1
    ring
  · have hsplit := floor_div_arc_split lon h0 11 (by norm_num)
    push_cast at hsplit
    unfold rudramsa_sign
    rw [hsplit, Int.tmod_eq_emod (by omega) (by norm_num)]
    congr 1
    ring

/-- Witness for C3: the amended statement instantiated at longitude 45°. -/
theorem navamsa_formula_and_inline_double_witness :
    (0 : ℚ) ≤ 45 ∧ (45 : ℚ) < 360 ∧
    (compute_navamsa 45 = get_rasi_name (varga_formula 9 45) ∧
      shodasamsa_sign 45 =
        Int.emod (⌊rustRem (45:ℚ) 30 / (30 / (16 : ℚ))⌋ + ⌊(45:ℚ) / 30⌋ * (2 * 16)) 12 ∧
      rudramsa_sign 45 =
        Int.emod (⌊rustRem (45:ℚ) 30 / (30 / (11 : ℚ))⌋ + ⌊(45:ℚ) / 30⌋ * (2 * 11)) 12) :=
  ⟨by norm_num, by norm_num,
    navamsa_formula_and_inline_double 45 (by norm_num) (by norm_num)⟩

/-- Every string produced by `get_rasi_name` fails the float-parsing
grammar: the twelve sign names each start with a letter outside the grammar,
and the (unreachable) default is empty. -/
theorem rasi_names_not_numeric (i : ℤ) :
    isNumericString (get_rasi_name i) = false := by
  unfold get_rasi_name
  split <;> decide

/-- At sign index 0 (Aries), `is_own_sign` holds exactly for Mars. -/
theorem is_own_sign_zero (name : String) :
    is_own_sign name 0 = (name == "Mars") := by
  unfold is_own_sign
  split <;> simp_all [beq_iff_eq]

/-- Claim C10: because the D9 and D12 sign names never parse as `f64`, the
`parse(...).unwrap_or(0.0)` collapses both divisional own-sign checks of
`calculate_divisional_strength` to `is_own_sign(name, 0)`, so the 5.0 (D-9)
and 2.0 (D-12) bonuses are granted exactly when the planet is Mars,
independently of its longitude. -/
theorem divisional_strength_navamsa_parse_bug (parse : String → Option ℚ)
    (hparse : ∀ s, isNumericString s = false → parse s = none)
    (p : PlanetPosition) :
    calculate_divisional_strength parse p =
      .ok (divisional_strength_d123 p + (if p.name = "Mars" then 5 else 0)
        + (if p.name = "Mars" then 2 else 0)) := by
  have hnav : parse (compute_navamsa p.sidereal_long_deg) = none :=
    hparse _ (by simp only [compute_navamsa]; exact rasi_names_not_numeric _)
  have hdwad : parse (compute_dwadasamsa p.sidereal_long_deg) = none :=
    hparse _ (by simp only [compute_dwadasamsa]; exact rasi_names_not_numeric _)
  simp only [calculate_divisional_strength, divisional_strength_d123, hnav,
    hdwad, Option.getD_none]
  norm_num [is_own_sign_zero, beq_iff_eq]

/-- Witness for C10: the theorem instantiated with the always-failing parser
and a Mars position at 45°. -/
theorem divisional_strength_navamsa_parse_bug_witness :
    calculate_divisional_strength (fun _ => none) ⟨"Mars", 45, 0, 1⟩ =
      .ok (divisional_strength_d123 ⟨"Mars", 45, 0, 1⟩
        + (if ("Mars" : String) = "Mars" then 5 else 0)
        + (if ("Mars" : String) = "Mars" then 2 else 0)) :=
  divisional_strength_navamsa_parse_bug (fun _ => none)
    (fun _ _ => rfl) ⟨"Mars", 45, 0, 1⟩

/-- Claim C7: `calculate_dignity` returns `Err(InvalidPlanet)` for Rahu and
Ketu, hence `calculate_shadbala` and `PlanetInfo::new` fail for those bodies
as well — even though both names are among the nine bodies produced by
`compute_all_planets`. -/
theorem rahu_ketu_invalid_planet (p : PlanetPosition) (jd asc : ℚ)
    (h : p.name = "Rahu" ∨ p.name = "Ketu") :
    calculate_dignity p = .error (.InvalidPlanet p.name) ∧
    calculate_shadbala p jd asc = .error (.InvalidPlanet p.name) ∧
    PlanetInfo.new p asc jd = .error (.InvalidPlanet p.name) ∧
    "Rahu" ∈ compute_all_planets_names ∧
    "Ketu" ∈ compute_all_planets_names := by
  obtain ⟨nm, lon, lat, dau⟩ := p
  simp only at h
  rcases h with h | h <;> subst h <;>
    exact ⟨rfl, rfl, rfl, by decide, by decide⟩

/-- Witness for C7: the failure at a concrete Rahu position. -/
theorem rahu_ketu_invalid_planet_witness :
    calculate_dignity ⟨"Rahu", 123, 0, 1⟩ =
      .error (.InvalidPlanet "Rahu") ∧
    calculate_shadbala ⟨"Rahu", 123, 0, 1⟩ 2451545 100 =
      .error (.InvalidPlanet "Rahu") ∧
    PlanetInfo.new ⟨"Rahu", 123, 0, 1⟩ 100 2451545 =
      .error (.InvalidPlanet "Rahu") ∧
    "Rahu" ∈ compute_all_planets_names ∧
    "Ketu" ∈ compute_all_planets_names :=
  rahu_ketu_invalid_planet ⟨"Rahu", 123, 0, 1⟩ 2451545 100 (Or.inl rfl)

/-- The inner planet loop of `calculate_complete_ashtakavarga` never fails
and adds exactly `contribSum` to each contributor table at `house`, leaving
all other cells and `sarva` untouched. -/
theorem ashtakavarga_inner_fold (house : Fin 12) (ps : List PlanetPosition) :
    ∀ c : AshtakavargaChart,
      ps.foldlM (fun ch p => ashtakavarga_add house ch p) c = .ok
        { sun := Function.update c.sun house
            (c.sun house + contribSum "Sun" house.val ps),
          moon := Function.update c.moon house
            (c.moon house + contribSum "Moon" house.val ps),
          mars := Function.update c.mars house
            (c.mars house + contribSum "Mars" house.val ps),
          mercury := Function.update c.mercury house
            (c.mercury house + contribSum "Mercury" house.val ps),
          jupiter := Function.update c.jupiter house
            (c.jupiter house + contribSum "Jupiter" house.val ps),
          venus := Function.update c.venus house
            (c.venus house + contribSum "Venus" house.val ps),
          saturn := Function.update c.saturn house
            (c.saturn house + contribSum "Saturn" house.val ps),
          sarva := c.sarva } := by
  induction ps with
  | nil =>
      intro c
      simp only [List.foldlM_nil, contribSum, List.map_nil, List.sum_nil,
        add_zero, Function.update_eq_self]
      rfl
  | cons p ps ih =>
      intro c
      simp only [List.foldlM_cons]
      by_cases h1 : p.name = "Sun"
      · have hadd : ashtakavarga_add house c p = .ok { c with
            sun := Function.update c.sun house
              (c.sun house + bindu_val house.val (planet_house_usize p) "Sun") } := by
          simp [ashtakavarga_add, h1, calculate_bindu, bindu_val, bind,
            Except.bind, pure, Except.pure]
        rw [hadd]
        simp only [bind, Except.bind]
        rw [ih]
        simp [contribSum, h1, bindu_val, Function.update_idem, String.reduceEq,
          Function.update_same, add_assoc]
      · by_cases h2 : p.name = "Moon"
        · have hadd : ashtakavarga_add house c p = .ok { c with
              moon := Function.update c.moon house
                (c.moon house + bindu_val house.val (planet_house_usize p) "Moon") } := by
            simp [ashtakavarga_add, h2, calculate_bindu, bindu_val, bind,
              Except.bind, pure, Except.pure]
          rw [hadd]
          simp only [bind, Except.bind]
          rw [ih]
          simp [contribSum, h2, bindu_val, Function.update_idem, String.reduceEq,
            Function.update_same, add_assoc]
        · by_cases h3 : p.name = "Mars"
          · have hadd : ashtakavarga_add house c p = .ok { c with
                mars := Function.update c.mars house
                  (c.mars house + bindu_val house.val (planet_house_usize p) "Mars") } := by
              simp [ashtakavarga_add, h3, calculate_bindu, bindu_val, bind,
                Except.bind, pure, Except.pure]
            rw [hadd]
            simp only [bind, Except.bind]
            rw [ih]
            simp [contribSum, h3, bindu_val, Function.update_idem, String.reduceEq,
              Function.update_same, add_assoc]
          · by_cases h4 : p.name = "Mercury"
            · have hadd : ashtakavarga_add house c p = .ok { c with
                  mercury := Function.update c.mercury house
                    (c.mercury house + bindu_val house.val (planet_house_usize p) "Mercury") } := by
                simp [ashtakavarga_add, h4, calculate_bindu, bindu_val, bind,
                  Except.bind, pure, Except.pure]
              rw [hadd]
              simp only [bind, Except.bind]
              rw [ih]
              simp [contribSum, h4, bindu_val, Function.update_idem, String.reduceEq,
                Function.update_same, add_assoc]
            · by_cases h5 : p.name = "Jupiter"
              · have hadd : ashtakavarga_add house c p = .ok { c with
                    jupiter := Function.update c.jupiter house
                      (c.jupiter house + bindu_val house.val (planet_house_usize p) "Jupiter") } := by
                  simp [ashtakavarga_add, h5, calculate_bindu, bindu_val, bind,
                    Except.bind, pure, Except.pure]
                rw [hadd]
                simp only [bind, Except.bind]
                rw [ih]
                simp [contribSum, h5, bindu_val, Function.update_idem, String.reduceEq,
                  Function.update_same, add_assoc]
              · by_cases h6 : p.name = "Venus"
                · have hadd : ashtakavarga_add house c p = .ok { c with
                      venus := Function.update c.venus house
                        (c.venus house + bindu_val house.val (planet_house_usize p) "Venus") } := by
                    simp [ashtakavarga_add, h6, calculate_bindu, bindu_val, bind,
                      Except.bind, pure, Except.pure]
                  rw [hadd]
                  simp only [bind, Except.bind]
                  rw [ih]
                  simp [contribSum, h6, bindu_val, Function.update_idem, String.reduceEq,
                    Function.update_same, add_assoc]
                · by_cases h7 : p.name = "Saturn"
                  · have hadd : ashtakavarga_add house c p = .ok { c with
                        saturn := Function.update c.saturn house
                          (c.saturn house + bindu_val house.val (planet_house_usize p) "Saturn") } := by
                      simp [ashtakavarga_add, h7, calculate_bindu, bindu_val, bind,
                        Except.bind, pure, Except.pure]
                    rw [hadd]
                    simp only [bind, Except.bind]
                    rw [ih]
                    simp [contribSum, h7, bindu_val, Function.update_idem, String.reduceEq,
                      Function.update_same, add_assoc]
                  · have hstep : ashtakavarga_add house c p = .ok c := by
                      simp only [ashtakavarga_add]
                      rfl
                    rw [hstep]
                    simp only [bind, Except.bind]
                    rw [ih]
                    simp [contribSum, h1, h2, h3, h4, h5, h6, h7]

theorem contribSum_cons (name : String) (house : ℕ) (p : PlanetPosition)
    (ps : List PlanetPosition) :
    contribSum name house (p :: ps) =
      (if p.name = name then bindu_val house (planet_house_usize p) name else 0)
        + contribSum name house ps := by
  simp [contribSum]

theorem bindu_val_le_one (house ph : ℕ) (name : String) :
    bindu_val house ph name ≤ 1 := by
  unfold bindu_val
  dsimp only
  split <;> omega

theorem contribSum_eq_zero_of_not_mem (name : String) (house : ℕ)
    (ps : List PlanetPosition) (hn : name ∉ ps.map (fun p => p.name)) :
    contribSum name house ps = 0 := by
  induction ps with
  | nil => simp [contribSum]
  | cons p ps ih =>
      rw [List.map_cons, List.mem_cons] at hn
      push_neg at hn
      rw [contribSum_cons, if_neg (fun e => hn.1 (by rw [e])), zero_add]
      exact ih hn.2

theorem contribSum_le_one (name : String) (house : ℕ)
    (ps : List PlanetPosition) (hnd : (ps.map (fun p => p.name)).Nodup) :
    contribSum name house ps ≤ 1 := by
  induction ps with
  | nil => simp [contribSum]
  | cons p ps ih =>
      rw [List.map_cons, List.nodup_cons] at hnd
      rw [contribSum_cons]
      by_cases hp : p.name = name
      · have hz : contribSum name house ps = 0 :=
          contribSum_eq_zero_of_not_mem name house ps (hp ▸ hnd.1)
        rw [hz, add_zero, if_pos hp]
        exact bindu_val_le_one house (planet_house_usize p) name
      · rw [if_neg hp, zero_add]
        exact ih hnd.2

/-- The outer house loop of `calculate_complete_ashtakavarga`: starting from
a chart whose contributor cells are zero at every unprocessed house, it
succeeds, leaves untouched houses unchanged, and at every processed house
each contributor table holds exactly `contribSum` and `sarva` holds the sum
of the seven contributor tables. -/
theorem ashtakavarga_outer_fold (ps : List PlanetPosition) :
    ∀ (L : List (Fin 12)) (c : AshtakavargaChart), L.Nodup →
      (∀ h ∈ L, c.sun h = 0 ∧ c.moon h = 0 ∧ c.mars h = 0 ∧ c.mercury h = 0 ∧
        c.jupiter h = 0 ∧ c.venus h = 0 ∧ c.saturn h = 0) →
      ∃ c', L.foldlM (ashtakavarga_house ps) c = .ok c' ∧
        (∀ h, h ∉ L →
          c'.sun h = c.sun h ∧ c'.moon h = c.moon h ∧ c'.mars h = c.mars h ∧
          c'.mercury h = c.mercury h ∧ c'.jupiter h = c.jupiter h ∧
          c'.venus h = c.venus h ∧ c'.saturn h = c.saturn h ∧
          c'.sarva h = c.sarva h) ∧
        (∀ h ∈ L,
          c'.sun h = contribSum "Sun" h.val ps ∧
          c'.moon h = contribSum "Moon" h.val ps ∧
          c'.mars h = contribSum "Mars" h.val ps ∧
          c'.mercury h = contribSum "Mercury" h.val ps ∧
          c'.jupiter h = contribSum "Jupiter" h.val ps ∧
          c'.venus h = contribSum "Venus" h.val ps ∧
          c'.saturn h = contribSum "Saturn" h.val ps ∧
          c'.sarva h = c'.sun h + c'.moon h + c'.mars h + c'.mercury h +
            c'.jupiter h + c'.venus h + c'.saturn h) := by
  intro L
  induction L with
  | nil =>
      intro c _ _
      exact ⟨c, rfl, fun h _ => ⟨rfl, rfl, rfl, rfl, rfl, rfl, rfl, rfl⟩,
        fun h hmem => absurd hmem (List.not_mem_nil h)⟩
  | cons h₀ L ih =>
      intro c hnd hzero
      obtain ⟨hnotin, hnd'⟩ := List.nodup_cons.mp hnd
      have hstep : ∃ c₁, ashtakavarga_house ps c h₀ = .ok c₁ ∧
          (∀ h, h ≠ h₀ →
            c₁.sun h = c.sun h ∧ c₁.moon h = c.moon h ∧ c₁.mars h = c.mars h ∧
            c₁.mercury h = c.mercury h ∧ c₁.jupiter h = c.jupiter h ∧
            c₁.venus h = c.venus h ∧ c₁.saturn h = c.saturn h ∧
            c₁.sarva h = c.sarva h) ∧
          (c₁.sun h₀ = c.sun h₀ + contribSum "Sun" h₀.val ps ∧
            c₁.moon h₀ = c.moon h₀ + contribSum "Moon" h₀.val ps ∧
            c₁.mars h₀ = c.mars h₀ + contribSum "Mars" h₀.val ps ∧
            c₁.mercury h₀ = c.mercury h₀ + contribSum "Mercury" h₀.val ps ∧
            c₁.jupiter h₀ = c.jupiter h₀ + contribSum "Jupiter" h₀.val ps ∧
            c₁.venus h₀ = c.venus h₀ + contribSum "Venus" h₀.val ps ∧
            c₁.saturn h₀ = c.saturn h₀ + contribSum "Saturn" h₀.val ps ∧
            c₁.sarva h₀ = c₁.sun h₀ + c₁.moon h₀ + c₁.mars h₀ + c₁.mercury h₀ +
              c₁.jupiter h₀ + c₁.venus h₀ + c₁.saturn h₀) := by
        refine ⟨{ sun := (Function.update c.sun h₀ (c.sun h₀ + contribSum "Sun" h₀.val ps)), moon := (Function.update c.moon h₀ (c.moon h₀ + contribSum "Moon" h₀.val ps)), mars := (Function.update c.mars h₀ (c.mars h₀ + contribSum "Mars" h₀.val ps)), mercury := (Function.update c.mercury h₀ (c.mercury h₀ + contribSum "Mercury" h₀.val ps)), jupiter := (Function.update c.jupiter h₀ (c.jupiter h₀ + contribSum "Jupiter" h₀.val ps)), venus := (Function.update c.venus h₀ (c.venus h₀ + contribSum "Venus" h₀.val ps)), saturn := (Function.update c.saturn h₀ (c.saturn h₀ + contribSum "Saturn" h₀.val ps)), sarva := (Function.update c.sarva h₀ ((c.sun h₀ + contribSum "Sun" h₀.val ps) + (c.moon h₀ + contribSum "Moon" h₀.val ps) + (c.mars h₀ + contribSum "Mars" h₀.val ps) + (c.mercury h₀ + contribSum "Mercury" h₀.val ps) + (c.jupiter h₀ + contribSum "Jupiter" h₀.val ps) + (c.venus h₀ + contribSum "Venus" h₀.val ps) + (c.saturn h₀ + contribSum "Saturn" h₀.val ps))) }, ?_, ?_, ?_⟩
        · simp only [ashtakavarga_house, ashtakavarga_inner_fold h₀ ps c,
            bind, Except.bind, pure, Except.pure, Function.update_same]
        · intro h hne
          exact ⟨Function.update_noteq hne _ _, Function.update_noteq hne _ _,
            Function.update_noteq hne _ _, Function.update_noteq hne _ _,
            Function.update_noteq hne _ _, Function.update_noteq hne _ _,
            Function.update_noteq hne _ _, Function.update_noteq hne _ _⟩
        · simp [Function.update_same]
      obtain ⟨c₁, hc₁, hkeep, hhit⟩ := hstep
      have hzero' : ∀ h ∈ L, c₁.sun h = 0 ∧ c₁.moon h = 0 ∧ c₁.mars h = 0 ∧
          c₁.mercury h = 0 ∧ c₁.jupiter h = 0 ∧ c₁.venus h = 0 ∧
          c₁.saturn h = 0 := by
        intro h hm
        have hne : h ≠ h₀ := fun e => hnotin (e ▸ hm)
        obtain ⟨k1, k2, k3, k4, k5, k6, k7, _⟩ := hkeep h hne
        obtain ⟨z1, z2, z3, z4, z5, z6, z7⟩ :=
          hzero h (List.mem_cons_of_mem _ hm)
        exact ⟨k1.trans z1, k2.trans z2, k3.trans z3, k4.trans z4,
          k5.trans z5, k6.trans z6, k7.trans z7⟩
      obtain ⟨c', hfold, hout, hin⟩ := ih c₁ hnd' hzero'
      refine ⟨c', ?_, ?_, ?_⟩
      · simp only [List.foldlM_cons, hc₁, bind, Except.bind]
        exact hfold
      · intro h hh
        have hne : h ≠ h₀ := fun e => hh (e ▸ List.mem_cons_self h₀ L)
        have hnl : h ∉ L := fun e => hh (List.mem_cons_of_mem _ e)
        obtain ⟨o1, o2, o3, o4, o5, o6, o7, o8⟩ := hout h hnl
        obtain ⟨k1, k2, k3, k4, k5, k6, k7, k8⟩ := hkeep h hne
        exact ⟨o1.trans k1, o2.trans k2, o3.trans k3, o4.trans k4,
          o5.trans k5, o6.trans k6, o7.trans k7, o8.trans k8⟩
      · intro h hh
        rcases List.mem_cons.mp hh with rfl | hm
        · obtain ⟨o1, o2, o3, o4, o5, o6, o7, o8⟩ := hout h hnotin
          obtain ⟨e1, e2, e3, e4, e5, e6, e7, e8⟩ := hhit
          obtain ⟨z1, z2, z3, z4, z5, z6, z7⟩ :=
            hzero h (List.mem_cons_self h L)
          have f1 : c'.sun h = contribSum "Sun" h.val ps := by
            rw [o1, e1, z1, zero_add]
          have f2 : c'.moon h = contribSum "Moon" h.val ps := by
            rw [o2, e2, z2, zero_add]
          have f3 : c'.mars h = contribSum "Mars" h.val ps := by
            rw [o3, e3, z3, zero_add]
          have f4 : c'.mercury h = contribSum "Mercury" h.val ps := by
            rw [o4, e4, z4, zero_add]
          have f5 : c'.jupiter h = contribSum "Jupiter" h.val ps := by
            rw [o5, e5, z5, zero_add]
          have f6 : c'.venus h = contribSum "Venus" h.val ps := by
            rw [o6, e6, z6, zero_add]
          have f7 : c'.saturn h = contribSum "Saturn" h.val ps := by
            rw [o7, e7, z7, zero_add]
          refine ⟨f1, f2, f3, f4, f5, f6, f7, ?_⟩
          rw [o8, e8, o1, o2, o3, o4, o5, o6, o7]
        · exact hin h hm

/-- Claim C6: for planets with pairwise distinct names drawn from the nine
supported bodies, `calculate_complete_ashtakavarga` succeeds, every `sarva`
cell equals the sum of the seven contributor tables at that house, and every
individual contributor cell is 0 or 1. -/
theorem ashtakavarga_sarva_is_sum (ps : List PlanetPosition)
    (hnodup : (ps.map (fun p => p.name)).Nodup)
    (hnames : ∀ p ∈ ps, p.name ∈ compute_all_planets_names) :
    ∃ chart, calculate_complete_ashtakavarga ps = .ok chart ∧
      (∀ h : Fin 12, chart.sarva h =
        chart.sun h + chart.moon h + chart.mars h + chart.mercury h +
          chart.jupiter h + chart.venus h + chart.saturn h) ∧
      (∀ h : Fin 12,
        (chart.sun h = 0 ∨ chart.sun h = 1) ∧
        (chart.moon h = 0 ∨ chart.moon h = 1) ∧
        (chart.mars h = 0 ∨ chart.mars h = 1) ∧
        (chart.mercury h = 0 ∨ chart.mercury h = 1) ∧
        (chart.jupiter h = 0 ∨ chart.jupiter h = 1) ∧
        (chart.venus h = 0 ∨ chart.venus h = 1) ∧
        (chart.saturn h = 0 ∨ chart.saturn h = 1)) := by
  obtain ⟨c', hfold, hout, hin⟩ := ashtakavarga_outer_fold ps (List.finRange 12)
    { sun := fun _ => 0, moon := fun _ => 0, mars := fun _ => 0,
      mercury := fun _ => 0, jupiter := fun _ => 0, venus := fun _ => 0,
      saturn := fun _ => 0, sarva := fun _ => 0 }
    (List.nodup_finRange 12)
    (fun h _ => ⟨rfl, rfl, rfl, rfl, rfl, rfl, rfl⟩)
  refine ⟨c', hfold, ?_, ?_⟩
  · intro h
    exact (hin h (List.mem_finRange h)).2.2.2.2.2.2.2
  · intro h
    obtain ⟨e1, e2, e3, e4, e5, e6, e7, _⟩ := hin h (List.mem_finRange h)
    have hb : ∀ nm : String, contribSum nm h.val ps = 0 ∨
        contribSum nm h.val ps = 1 :=
      fun nm => Nat.le_one_iff_eq_zero_or_eq_one.mp
        (contribSum_le_one nm h.val ps hnodup)
    exact ⟨e1 ▸ hb "Sun", e2 ▸ hb "Moon", e3 ▸ hb "Mars", e4 ▸ hb "Mercury",
      e5 ▸ hb "Jupiter", e6 ▸ hb "Venus", e7 ▸ hb "Saturn"⟩

/-- Witness for C6: the theorem instantiated at a concrete two-planet list. -/
theorem ashtakavarga_sarva_is_sum_witness :
    (([⟨"Sun", 10, 0, 1⟩, ⟨"Moon", 100, 0, 1⟩] :
        List PlanetPosition).map (fun p => p.name)).Nodup ∧
    (∀ p ∈ ([⟨"Sun", 10, 0, 1⟩, ⟨"Moon", 100, 0, 1⟩] : List PlanetPosition),
      p.name ∈ compute_all_planets_names) ∧
    (∃ chart, calculate_complete_ashtakavarga
        [⟨"Sun", 10, 0, 1⟩, ⟨"Moon", 100, 0, 1⟩] = .ok chart ∧
      (∀ h : Fin 12, chart.sarva h =
        chart.sun h + chart.moon h + chart.mars h + chart.mercury h +
          chart.jupiter h + chart.venus h + chart.saturn h) ∧
      (∀ h : Fin 12,
        (chart.sun h = 0 ∨ chart.sun h = 1) ∧
        (chart.moon h = 0 ∨ chart.moon h = 1) ∧
        (chart.mars h = 0 ∨ chart.mars h = 1) ∧
        (chart.mercury h = 0 ∨ chart.mercury h = 1) ∧
        (chart.jupiter h = 0 ∨ chart.jupiter h = 1) ∧
        (chart.venus h = 0 ∨ chart.venus h = 1) ∧
        (chart.saturn h = 0 ∨ chart.saturn h = 1))) :=
  ⟨by decide, by decide,
    ashtakavarga_sarva_is_sum [⟨"Sun", 10, 0, 1⟩, ⟨"Moon", 100, 0, 1⟩]
      (by decide) (by decide)⟩

end Vsop
